import Mathlib

/-!
Verification of the GitLab API v4 adapter module (`src/gitlab.py`) against its
natural-language specification.

The module is shallowly embedded: Python values are modelled by `Gitlab.Val`,
raised exceptions by `Gitlab.PyErr`, and the ambient host facilities (the salt
master configuration read by `salt.config.client_config` and the HTTP transport
`salt.utils.http.query`) by an explicit environment `Gitlab.Env`.  Each module
function becomes a function in the state-passing shape
`Env → Except PyErr α × List Request`, where the request list records every
outbound HTTP query actually issued through the transport.
-/

namespace Gitlab

/-- A Python value, as far as the module manipulates them: `None`, booleans,
integers, strings, lists and string-keyed dicts (a dict is an insertion-ordered
association list, mirroring Python 3 dict semantics with unique keys). -/
inductive Val where
  | none
  | bool (b : Bool)
  | int (n : Int)
  | str (s : String)
  | list (xs : List Val)
  | dict (kvs : List (String × Val))

/-- Python truthiness (`bool(v)`): `None`, `False`, `0`, `""` and empty
containers are falsy, everything else is truthy. -/
def valTruthy : Val → Bool
  | .none => false
  | .bool b => b
  | .int n => n != 0
  | .str s => s != ""
  | .list xs => !xs.isEmpty
  | .dict kvs => !kvs.isEmpty

/-- Python `v == n` against an integer literal (the module only compares the
response status against the integers `http_client.OK = 200` and
`http_client.CREATED = 201`; `True == 1` also holds in Python). -/
def valEqInt (v : Val) (n : Int) : Bool :=
  match v with
  | .int m => m == n
  | .bool b => (if b then (1 : Int) else 0) == n
  | _ => false

/-- First binding of key `k` in an association list, or `none`. -/
def lookupKey : List (String × Val) → String → Option Val
  | [], _ => Option.none
  | kv :: rest, k => if kv.1 = k then Option.some kv.2 else lookupKey rest k

/-- `kvs.get(k, d)` on an association list: the bound value, or the default. -/
def lookupD (kvs : List (String × Val)) (k : String) (d : Val) : Val :=
  match lookupKey kvs k with
  | Option.some v => v
  | Option.none => d

/-- `k in kvs` for an association list. -/
def hasKey : List (String × Val) → String → Bool
  | [], _ => false
  | kv :: rest, k => if kv.1 = k then true else hasKey rest k

/-- Remove the first binding of key `k` (Python `dict.pop(k)` removes the lone
binding; dict keys are unique, so removing the first removes the only one). -/
def eraseKey : List (String × Val) → String → List (String × Val)
  | [], _ => []
  | kv :: rest, k => if kv.1 = k then rest else kv :: eraseKey rest k

/-- Python `d[k] = v` on a dict: replace the binding if the key is present,
append it otherwise. -/
def dictSet : List (String × Val) → String → Val → List (String × Val)
  | [], k, v => [(k, v)]
  | kv :: rest, k, v => if kv.1 = k then (k, v) :: rest else kv :: dictSet rest k v

/-- `dict.get(k, d)` on a `Val` that is a dict; on any non-dict value the
module would hit an `AttributeError`, which never arises because the transport
result is always a dict — modelled as the default for totality. -/
def vgetD (v : Val) (k : String) (d : Val) : Val :=
  match v with
  | .dict kvs => lookupD kvs k d
  | _ => d

/-- Python `key in container` as used on the result of the variable listing:
membership among the keys of a dict, or among the string elements of a list. -/
def pyIn (key : String) : Val → Bool
  | .dict kvs => hasKey kvs key
  | .list xs => xs.any (fun x => match x with | .str s => s == key | _ => false)
  | _ => false

/-- An exception raised by the module: `SaltInvocationError` (the single
exception class the module raises itself), or a Python-semantics error —
`NameError` for an unbound name, `KeyError` for a missing dict key,
`TypeError` for a bad call. -/
inductive PyErr where
  | saltError (msg : Val)
  | nameError (nm : String)
  | keyError (k : String)
  | typeError (msg : String)

/-- The argument record of one call to the transport `salt.utils.http.query`,
transcribing the keyword arguments passed at lines 89–103 of `src/gitlab.py`
(`cert` is accepted by `_http_request` but never forwarded; `opts=__opts__` is
ambient host state carrying no information for the properties below). -/
structure Request where
  url : String
  method : String
  ca_bundle : Val
  data : Val
  decode : Bool
  decode_type : String
  formdata : Val
  formdata_fieldname : Val
  header_dict : List (String × Val)
  status : Bool
  stream : Val
  streaming_callback : Val
  text : Bool

/-- The ambient host facilities: the salt master configuration (as read by
`salt.config.client_config('/etc/salt/master')`, `.error` when that read
raises) and the HTTP transport (the response `salt.utils.http.query` would
return for a given request). -/
structure Env where
  master_config : Except String Val
  server : Request → Val

/-- A module computation: from the environment, either a value or a raised
exception, together with the list of HTTP queries actually issued. -/
def M (α : Type) : Type := Env → Except PyErr α × List Request

/-- Return a value, issuing no query. -/
def mret {α : Type} (a : α) : M α := fun _ => (.ok a, [])

/-- Raise an exception, issuing no query. -/
def mthrow {α : Type} (e : PyErr) : M α := fun _ => (.error e, [])

/-- Sequencing: a raised exception aborts the continuation; issued queries
accumulate in order. -/
def mbind {α β : Type} (x : M α) (f : α → M β) : M β := fun env =>
  match x env with
  | (.error e, t) => (.error e, t)
  | (.ok a, t) =>
    match f a env with
    | (r, t2) => (r, t ++ t2)

/-- Lift a pure `Except` result (pure response post-processing) into `M`. -/
def liftExcept {α : Type} (e : Except PyErr α) : M α := fun _ => (e, [])

/-- One call to the transport `salt.utils.http.query`: records the request and
returns the transport's response. -/
def query (req : Request) : M Val := fun env => (.ok (env.server req), [req])

/-- `_get_config` (lines 38–48): read the master configuration; a read failure
is re-raised as `SaltInvocationError('No GitLab configuration found: …')`;
otherwise return `master_opts.get('gitlab', {})`. -/
def get_config : M Val := fun env =>
  match env.master_config with
  | .error err =>
      (.error (.saltError (.str ("No GitLab configuration found: " ++ err))), [])
  | .ok master_opts => (.ok (vgetD master_opts "gitlab" (.dict [])), [])

/-- Scan a character list for the first occurrence of `"://"` , returning the
text before it and the text after it (the scheme and the rest of the URL).
Used to model `urllib.parse.urljoin` for the absolute URLs arising here. -/
def splitSchemeAux : List Char → Option (List Char × List Char)
  | [] => Option.none
  | c :: cs =>
    if c = ':' ∧ cs.take 2 = ['/', '/'] then Option.some ([], cs.drop 2)
    else (splitSchemeAux cs).map (fun pr => (c :: pr.1, pr.2))

/-- Model of `urllib.parse.urljoin(base, rel)` restricted to the only shape the
module produces: `rel` always begins with `'/'` (it is `'/api/v4' + path`), so
the result is the scheme and network location of `base` followed by `rel`; a
base without a scheme has an empty network location, so the result is `rel`
itself.  A path component of `base` is dropped, as `urljoin` does for
absolute-path references. -/
def urljoin (base rel : String) : String :=
  match splitSchemeAux base.toList with
  | Option.some (scheme, rest) =>
      String.mk (scheme ++ [':', '/', '/'] ++ rest.takeWhile (fun c => c ≠ '/')) ++ rel
  | Option.none => rel

/-- Line 82: `url = _urljoin(api_url, '/api/v4' + six.text_type(path))`. -/
def buildUrl (api_url path : String) : String :=
  urljoin api_url ("/api/v4" ++ path)

/-- Lines 85–87: `headers = {'PRIVATE-TOKEN': token}`; then
`if method != 'POST': headers['Content-Type'] = 'application/json'`. -/
def buildHeaders (method : String) (token : Val) : List (String × Val) :=
  if method ≠ "POST" then
    [("PRIVATE-TOKEN", token), ("Content-Type", .str "application/json")]
  else
    [("PRIVATE-TOKEN", token)]

/-- Line 83 and line 29: the module writes `log.warning(url)` but never imports
the `logging` library nor binds the name `log` anywhere (there is no
`log = logging.getLogger(__name__)` line), and the salt loader does not inject
a `log` global.  Evaluating the name therefore raises `NameError`. -/
def log_warning (_url : String) : M Val := mthrow (.nameError "log")

/-- The keyword parameters accepted by `_http_request` (lines 51–59) besides
the positional `method` and `path`; a keyword argument outside this list makes
the call itself raise `TypeError` before the body runs. -/
def httpRequestKeywords : List String :=
  ["data", "formdata", "formdata_fieldname", "stream", "streaming_callback",
   "verify_ssl", "cert"]

/-- Whether a keyword-argument list binds only parameters of `_http_request`. -/
def validKwargs (kwargs : List (String × Val)) : Bool :=
  kwargs.all (fun kv => httpRequestKeywords.contains kv.1)

/-- `_http_request(method, path, …)` (lines 51–104), with the keyword
arguments carried as an association list (Python binds them to the named
parameters, raising `TypeError` on an unexpected keyword).  The body, in
source order: read the configuration; raise unless `api_url` and `token` are
truthy; compute `decode` and `ca_bundle`; build the URL; evaluate the unbound
name `log` (which raises `NameError`); then — unreachably — build the headers
and issue the transport query. -/
def http_request (method path : String) (kwargs : List (String × Val)) : M Val :=
  if validKwargs kwargs = false then
    mthrow (.typeError "unexpected keyword argument")
  else
    mbind get_config (fun gitlab_config =>
      let api_url := vgetD gitlab_config "api_url" .none
      if valTruthy api_url = false then
        mthrow (.saltError (.str "No GitLab API URL found"))
      else
        let token := vgetD gitlab_config "token" .none
        if valTruthy token = false then
          mthrow (.saltError (.str "No GitLab Token found"))
        else
          let decode := if method = "DELETE" then false else true
          let ca_certs := vgetD gitlab_config "ca_certs" .none
          let verify_ssl := lookupD kwargs "verify_ssl" (.bool true)
          let ca_bundle :=
            if valTruthy ca_certs && valEqInt verify_ssl 1 then ca_certs else Val.none
          match api_url with
          | .str base =>
            let url := buildUrl base path
            mbind (log_warning url) (fun _ =>
              let headers := buildHeaders method token
              query { url := url
                      method := method
                      ca_bundle := ca_bundle
                      data := lookupD kwargs "data" .none
                      decode := decode
                      decode_type := "auto"
                      formdata := lookupD kwargs "formdata" (.bool false)
                      formdata_fieldname := lookupD kwargs "formdata_fieldname" .none
                      header_dict := headers
                      status := true
                      stream := lookupD kwargs "stream" (.bool false)
                      streaming_callback := lookupD kwargs "streaming_callback" .none
                      text := true })
          | _ => mthrow (.typeError "urljoin expects a string"))

/-- `http_delete(path, **kwargs)` (lines 107–111). -/
def http_delete (path : String) (kwargs : List (String × Val)) : M Val :=
  http_request "DELETE" path kwargs

/-- The response post-processing of `http_get` (lines 120–127): in streaming
mode return the raw response; otherwise raise
`SaltInvocationError(response.get('error'))` unless the status is
`http_client.OK` (200); on 200 return `response['dict']` (a `KeyError` if the
transport result has no `'dict'` entry, a `TypeError` if it is not a dict). -/
def http_get_handle (kwargs : List (String × Val)) (response : Val) : Except PyErr Val :=
  let streamed := valTruthy (lookupD kwargs "stream" (.bool false))
  if streamed then .ok response
  else if valEqInt (vgetD response "status" .none) 200 = false then
    .error (.saltError (vgetD response "error" .none))
  else
    match response with
    | .dict kvs =>
      match lookupKey kvs "dict" with
      | Option.some v => .ok v
      | Option.none => .error (.keyError "dict")
    | _ => .error (.typeError "response is not subscriptable")

/-- `http_get(path, **kwargs)` (lines 114–127). -/
def http_get (path : String) (kwargs : List (String × Val)) : M Val :=
  mbind (http_request "GET" path kwargs) (fun response =>
    liftExcept (http_get_handle kwargs response))

/-- The response post-processing of `http_post` (lines 138–141): raise
`SaltInvocationError(response.get('error'))` unless the status is
`http_client.CREATED` (201); on 201 return `response.get('dict', {})`. -/
def http_post_handle (response : Val) : Except PyErr Val :=
  if valEqInt (vgetD response "status" .none) 201 = false then
    .error (.saltError (vgetD response "error" .none))
  else
    .ok (vgetD response "dict" (.dict []))

/-- `http_post(path, data=None, **kwargs)` (lines 130–141); the explicit
`data=data` keyword in the forwarded call collides with a `'data'` key already
present in `kwargs` (Python `TypeError`). -/
def http_post (path : String) (data : Val) (kwargs : List (String × Val)) : M Val :=
  if hasKey kwargs "data" then
    mthrow (.typeError "multiple values for argument data")
  else
    mbind (http_request "POST" path (("data", data) :: kwargs)) (fun response =>
      liftExcept (http_post_handle response))

/-- `http_put(path, data=None, **kwargs)` (lines 144–148): the transport
result is returned as is — there is no status handling at all. -/
def http_put (path : String) (data : Val) (kwargs : List (String × Val)) : M Val :=
  if hasKey kwargs "data" then
    mthrow (.typeError "multiple values for argument data")
  else
    http_request "PUT" path (("data", data) :: kwargs)

/-- `project_create_variable(project_id, key, value, formdata=False,
formdata_fieldname=None, masked=False, protected=False,
variable_type='env_var', **kwargs)` (lines 150–182), with the keyword
arguments carried as an association list: the named parameters take their
values from it and any remaining entries land in the function's `**kwargs`,
which its body never reads. -/
def project_create_variable (project_id : Int) (key : String) (value : Val)
    (kwargs : List (String × Val)) : M Val :=
  let formdata := lookupD kwargs "formdata" (.bool false)
  let formdata_fieldname := lookupD kwargs "formdata_fieldname" .none
  let masked := lookupD kwargs "masked" (.bool false)
  let protected_ := lookupD kwargs "protected" (.bool false)
  let variable_type := lookupD kwargs "variable_type" (.str "env_var")
  let resource := "/projects/" ++ toString project_id ++ "/variables"
  let post_data : List (String × Val) :=
    [("key", .str key), ("masked", masked), ("protected", protected_),
     ("value", value), ("variable_type", variable_type)]
  if valTruthy formdata && valTruthy formdata_fieldname then
    http_post resource
      (.dict (post_data ++ [("formdata", .bool true),
                            ("formdata_fieldname", formdata_fieldname)])) []
  else if valTruthy formdata && !valTruthy formdata_fieldname then
    mthrow (.saltError (.str "formdata_fieldname must be set if formdata=True"))
  else
    http_post resource (.dict post_data) []

/-- `project_remove_variable(project_id, key)` (lines 184–190). -/
def project_remove_variable (project_id : Int) (key : String) : M Val :=
  let resource := "/projects/" ++ toString project_id ++ "/variables/" ++ key
  mbind (http_delete resource []) (fun _ => mret (.dict []))

/-- The five recognized mutable fields of `project_update_variable`
(lines 204–210). -/
def updateParams : List String :=
  ["environment_scope", "masked", "protected", "value", "variable_type"]

/-- The `for param in params: … kwargs.pop(param) …` loop of
`project_update_variable` (lines 211–217): returns the `post_data` built in
parameter order and the kwargs left after the pops. -/
def popParams (ps : List String) (kwargs : List (String × Val)) :
    List (String × Val) × List (String × Val) :=
  match ps with
  | [] => ([], kwargs)
  | p :: rest =>
    match lookupKey kwargs p with
    | Option.some v =>
      let pr := popParams rest (eraseKey kwargs p)
      ((p, v) :: pr.1, pr.2)
    | Option.none => popParams rest kwargs

/-- Python `s.startswith('__')` as used at line 221, modelled over the
character list (`String.startsWith` itself is not kernel-reducible). -/
def startsWithUnderscores (s : String) : Bool :=
  "__".toList.isPrefixOf s.toList

/-- `project_update_variable(project_id, key, **kwargs)` (lines 192–223):
pop the recognized fields into `post_data`, drop the salt-injected `'__…'`
keys, and forward everything else as extra keyword arguments to `http_put`. -/
def project_update_variable (project_id : Int) (key : String)
    (kwargs : List (String × Val)) : M Val :=
  let resource := "/projects/" ++ toString project_id ++ "/variables/" ++ key
  let pr := popParams updateParams kwargs
  let post_data := pr.1
  let extra_args := pr.2.filter (fun kv => !startsWithUnderscores kv.1)
  http_put resource (.dict post_data) extra_args

/-- Modelled from the spec: `project_variables` is called at line 235 of
`src/gitlab.py` but defined nowhere under `src/`.  Spec §4.3 (`setVariable`)
says the operation "GETs the list of existing variables for the project", and
spec §2 says every operation delegates to the generic HTTP verb functions; it
is therefore modelled as a GET of `/projects/<project_id>/variables` through
`http_get`. -/
def project_variables (project_id : Int) : M Val :=
  http_get ("/projects/" ++ toString project_id ++ "/variables") []

/-- `project_set_variable(project_id, key, value, **kwargs)` (lines 225–241):
list the current variables; if `key` is among them set `kwargs['value']` and
delegate to update, else delegate to create. -/
def project_set_variable (project_id : Int) (key : String) (value : Val)
    (kwargs : List (String × Val)) : M Val :=
  mbind (project_variables project_id) (fun vars =>
    -- the source names this local `variables`, a reserved word in Lean
    if pyIn key vars then
      project_update_variable project_id key (dictSet kwargs "value" value)
    else
      project_create_variable project_id key value kwargs)

/-! Specification-side characterizations and shared concrete environments. -/

/-- The keys of a keyword-argument list (Python dicts have pairwise distinct
keys, stated as `(keysOf kwargs).Nodup` where a theorem needs it). -/
def keysOf (kvs : List (String × Val)) : List String := kvs.map Prod.fst

/-- Spec side of the `updateVariable` claim: the recognized mutable fields
actually supplied by the caller, in the module's fixed parameter order. -/
def recognizedPayload (kwargs : List (String × Val)) : List (String × Val) :=
  updateParams.filterMap (fun p => (lookupKey kwargs p).map (fun v => (p, v)))

/-- Spec side of the `updateVariable` claim: every supplied field that is
neither a recognized mutable field nor a host-injected (`__`-prefixed) one. -/
def forwardedExtras (kwargs : List (String × Val)) : List (String × Val) :=
  kwargs.filter (fun kv => !updateParams.contains kv.1 && !startsWithUnderscores kv.1)

/-- A master configuration whose `gitlab` block supplies both `api_url` and
`token`. -/
def sampleMaster : Val :=
  .dict [("gitlab", .dict [("api_url", .str "https://gl.example.com"),
                           ("token", .str "t0k")])]

/-- An environment with a complete configuration whose transport would answer
every request with a not-found response. -/
def envNotFound : Env :=
  { master_config := .ok sampleMaster
    server := fun _ =>
      .dict [("status", .int 404), ("dict", .dict []), ("error", .str "Not Found")] }

/-- An environment with a complete configuration whose transport would answer
every request with a server-error response. -/
def envServerError : Env :=
  { master_config := .ok sampleMaster
    server := fun _ =>
      .dict [("status", .int 500), ("error", .str "Internal Server Error")] }

/-- An environment with a complete configuration whose transport would answer
every request with a successful variable listing for project 1 containing the
key `"X"`. -/
def envVariableList : Env :=
  { master_config := .ok sampleMaster
    server := fun _ =>
      .dict [("status", .int 200), ("error", Val.none),
             ("dict", .list [.dict [("key", .str "X"), ("value", .str "old")]])] }

/-- An environment whose `gitlab` block lacks `api_url`. -/
def envNoApiUrl : Env :=
  { master_config := .ok (.dict [("gitlab", .dict [("token", .str "t0k")])])
    server := fun _ => .dict [] }

/-- An environment whose `gitlab` block lacks `token`. -/
def envNoToken : Env :=
  { master_config := .ok (.dict [("gitlab", .dict [("api_url", .str "https://gl.example.com")])])
    server := fun _ => .dict [] }

/-! ## Helper lemmas -/

/-- Sequencing two computations that issue no query issues no query. -/
theorem mbind_snd_nil {α β : Type} {x : M α} {f : α → M β} {env : Env}
    (hx : (x env).2 = []) (hf : ∀ a, (f a env).2 = []) :
    (mbind x f env).2 = [] := by
  unfold mbind
  rcases hxe : x env with ⟨r, t⟩
  have ht : t = [] := by simpa [hxe] using hx
  cases r with
  | error e => simpa using ht
  | ok a =>
    rcases hfe : f a env with ⟨r2, t2⟩
    have ht2 : t2 = [] := by simpa [hfe] using hf a
    simp [hfe, ht, ht2]

/-- No execution path of `_http_request` reaches the transport query: every
branch raises before `salt.utils.http.query` is called. -/
theorem http_request_snd (method path : String) (kwargs : List (String × Val)) (env : Env) :
    (http_request method path kwargs env).2 = [] := by
  unfold http_request
  split
  · rfl
  · apply mbind_snd_nil
    · unfold get_config; cases env.master_config <;> rfl
    · intro a
      cases hv : vgetD a "api_url" Val.none <;> dsimp only <;> split_ifs <;> rfl

/-- With a complete configuration (string `api_url`, truthy `token`) and
well-formed keyword arguments, `_http_request` reaches line 83 and raises
`NameError` on the unbound name `log`, issuing no query. -/
theorem http_request_good (method path : String) (kwargs : List (String × Val))
    (env : Env) (master : Val) (base : String)
    (h1 : validKwargs kwargs = true)
    (h2 : env.master_config = .ok master)
    (h3 : vgetD (vgetD master "gitlab" (.dict [])) "api_url" .none = .str base)
    (h4 : base ≠ "")
    (h5 : valTruthy (vgetD (vgetD master "gitlab" (.dict [])) "token" .none) = true) :
    http_request method path kwargs env = (.error (.nameError "log"), []) := by
  unfold http_request
  simp only [h1, Bool.true_eq_false, if_false]
  unfold mbind get_config
  rw [h2]
  dsimp only
  rw [h3]
  have hbase : ¬ (valTruthy (Val.str base) = false) := by simp [valTruthy]; exact h4
  have htok : ¬ (valTruthy (vgetD (vgetD master "gitlab" (Val.dict [])) "token" Val.none)
      = false) := by simp [h5]
  rw [if_neg hbase, if_neg htok]
  rfl

/-- `http_get` issues no query. -/
theorem http_get_snd (path : String) (kw : List (String × Val)) (env : Env) :
    (http_get path kw env).2 = [] :=
  mbind_snd_nil (http_request_snd _ _ _ _) (fun _ => rfl)

/-- `http_post` issues no query. -/
theorem http_post_snd (path : String) (d : Val) (kw : List (String × Val)) (env : Env) :
    (http_post path d kw env).2 = [] := by
  unfold http_post
  split
  · rfl
  · exact mbind_snd_nil (http_request_snd _ _ _ _) (fun _ => rfl)

/-- `http_put` issues no query. -/
theorem http_put_snd (path : String) (d : Val) (kw : List (String × Val)) (env : Env) :
    (http_put path d kw env).2 = [] := by
  unfold http_put
  split
  · rfl
  · exact http_request_snd _ _ _ _

/-- `http_delete` issues no query. -/
theorem http_delete_snd (path : String) (kw : List (String × Val)) (env : Env) :
    (http_delete path kw env).2 = [] :=
  http_request_snd _ _ _ _

/-- `project_create_variable` issues no query. -/
theorem project_create_variable_snd (pid : Int) (k : String) (v : Val)
    (kw : List (String × Val)) (env : Env) :
    (project_create_variable pid k v kw env).2 = [] := by
  unfold project_create_variable
  split_ifs
  · exact http_post_snd _ _ _ _
  · rfl
  · exact http_post_snd _ _ _ _

/-- `project_remove_variable` issues no query. -/
theorem project_remove_variable_snd (pid : Int) (k : String) (env : Env) :
    (project_remove_variable pid k env).2 = [] :=
  mbind_snd_nil (http_delete_snd _ _ _) (fun _ => rfl)

/-- `project_update_variable` issues no query. -/
theorem project_update_variable_snd (pid : Int) (k : String)
    (kw : List (String × Val)) (env : Env) :
    (project_update_variable pid k kw env).2 = [] := by
  unfold project_update_variable
  exact http_put_snd _ _ _ _

/-- `project_set_variable` issues no query. -/
theorem project_set_variable_snd (pid : Int) (k : String) (v : Val)
    (kw : List (String × Val)) (env : Env) :
    (project_set_variable pid k v kw env).2 = [] := by
  unfold project_set_variable project_variables
  apply mbind_snd_nil
  · exact http_get_snd _ _ _
  · intro a
    dsimp only
    split
    · exact project_update_variable_snd _ _ _ _
    · exact project_create_variable_snd _ _ _ _ _

/-- A `lookupKey` returning `none` means no binding carries that key. -/
theorem lookupKey_none_forall {kvs : List (String × Val)} {k : String}
    (h : lookupKey kvs k = Option.none) : ∀ kv ∈ kvs, kv.1 ≠ k := by
  induction kvs with
  | nil => intro kv hkv; simp at hkv
  | cons kv0 rest ih =>
    simp only [lookupKey] at h
    split_ifs at h with hif
    intro kv hkv
    rcases List.mem_cons.mp hkv with rfl | hm
    · exact hif
    · exact ih h kv hm

/-- Under distinct keys, a binding that is present is the one `lookupKey`
finds. -/
theorem lookupKey_eq_of_mem_nodup {kvs : List (String × Val)} {k : String} {v : Val}
    (hnd : (keysOf kvs).Nodup) (hm : (k, v) ∈ kvs) : lookupKey kvs k = Option.some v := by
  induction kvs with
  | nil => simp at hm
  | cons kv rest ih =>
    unfold keysOf at hnd
    simp only [List.map_cons, List.nodup_cons] at hnd
    rcases List.mem_cons.mp hm with h | h
    · unfold lookupKey
      simp [← h]
    · have hk : k ∈ rest.map Prod.fst := List.mem_map_of_mem Prod.fst h
      have hne : kv.1 ≠ k := fun he => hnd.1 (he ▸ hk)
      unfold lookupKey
      rw [if_neg hne]
      exact ih hnd.2 h

/-- A key outside the key list is not found. -/
theorem lookupKey_none_of_not_mem {kvs : List (String × Val)} {k : String}
    (h : k ∉ keysOf kvs) : lookupKey kvs k = Option.none := by
  induction kvs with
  | nil => rfl
  | cons kv rest ih =>
    unfold keysOf at h
    simp only [List.map_cons, List.mem_cons, not_or] at h
    unfold lookupKey
    rw [if_neg (fun he => h.1 he.symm)]
    exact ih (by unfold keysOf; exact h.2)

/-- `eraseKey` yields a sublist. -/
theorem eraseKey_sublist (kvs : List (String × Val)) (k : String) :
    (eraseKey kvs k).Sublist kvs := by
  induction kvs with
  | nil => exact List.Sublist.refl _
  | cons kv rest ih =>
    simp only [eraseKey]
    split_ifs
    · exact List.sublist_cons_self _ _
    · exact List.Sublist.cons₂ _ ih

/-- `eraseKey` preserves distinctness of keys. -/
theorem keysOf_nodup_eraseKey {kvs : List (String × Val)} (k : String)
    (h : (keysOf kvs).Nodup) : (keysOf (eraseKey kvs k)).Nodup :=
  List.Nodup.sublist (List.Sublist.map Prod.fst (eraseKey_sublist kvs k)) h

/-- Erasing one key leaves lookups of other keys unchanged. -/
theorem lookupKey_eraseKey_ne (kvs : List (String × Val)) (k q : String) (h : q ≠ k) :
    lookupKey (eraseKey kvs k) q = lookupKey kvs q := by
  induction kvs with
  | nil => rfl
  | cons kv rest ih =>
    simp only [eraseKey]
    split_ifs with h1
    · simp only [lookupKey]
      rw [if_neg (fun (h2 : kv.1 = q) => h (h2 ▸ h1))]
    · simp only [lookupKey]
      split_ifs with h2
      · rfl
      · exact ih

/-- Under distinct keys, erasing a key is filtering it out. -/
theorem eraseKey_eq_filter {kvs : List (String × Val)} (k : String)
    (h : (keysOf kvs).Nodup) :
    eraseKey kvs k = kvs.filter (fun kv => !(kv.1 == k)) := by
  induction kvs with
  | nil => rfl
  | cons kv rest ih =>
    unfold keysOf at h
    simp only [List.map_cons, List.nodup_cons] at h
    simp only [eraseKey]
    split_ifs with h1
    · rw [List.filter_cons_of_neg (by simp [h1])]
      symm
      rw [List.filter_eq_self]
      intro kv2 hkv2
      have hmem : kv2.1 ∈ rest.map Prod.fst := List.mem_map_of_mem Prod.fst hkv2
      have hne : kv2.1 ≠ k := fun he => h.1 (by rw [h1, ← he]; exact hmem)
      simp [hne]
    · rw [List.filter_cons_of_pos (by simp [h1])]
      rw [ih h.2]

/-- Characterization of the pop loop of `project_update_variable`: under
distinct keyword keys, the popped bindings are the recognized parameters in
parameter order, and the remainder is the keyword list with the parameters
filtered out. -/
theorem popParams_spec : ∀ (ps : List String) (kvs : List (String × Val)),
    (keysOf kvs).Nodup → ps.Nodup →
    (popParams ps kvs).1 =
      ps.filterMap (fun p => (lookupKey kvs p).map (fun v => (p, v))) ∧
    (popParams ps kvs).2 = kvs.filter (fun kv => !ps.contains kv.1) := by
  intro ps
  induction ps with
  | nil =>
    intro kvs h1 h2
    refine ⟨rfl, ?_⟩
    simp [popParams]
  | cons p rest ih =>
    intro kvs h1 h2
    have h2' := List.nodup_cons.mp h2
    unfold popParams
    cases hl : lookupKey kvs p with
    | none =>
      have hne : ∀ kv ∈ kvs, kv.1 ≠ p := lookupKey_none_forall hl
      obtain ⟨ha, hb⟩ := ih kvs h1 h2'.2
      refine ⟨?_, ?_⟩
      · rw [ha, List.filterMap_cons, hl]
        rfl
      · rw [hb]
        apply List.filter_congr
        intro kv hkv
        simp [List.contains_cons, hne kv hkv]
    | some v =>
      have hnd2 : (keysOf (eraseKey kvs p)).Nodup := keysOf_nodup_eraseKey p h1
      obtain ⟨ha, hb⟩ := ih (eraseKey kvs p) hnd2 h2'.2
      refine ⟨?_, ?_⟩
      · dsimp only
        rw [ha, List.filterMap_cons, hl]
        dsimp only [Option.map_some']
        congr 1
        apply List.filterMap_congr
        intro q hq
        rw [lookupKey_eraseKey_ne kvs p q (fun he => h2'.1 (he ▸ hq))]
      · dsimp only
        rw [hb, eraseKey_eq_filter p h1, List.filter_filter]
        apply List.filter_congr
        intro kv hkv
        simp only [List.contains_cons, Bool.not_or]
        rw [Bool.and_comm]

/-- A parse of a URL into scheme and remainder reassembles to the input. -/
theorem splitSchemeAux_append : ∀ (l s r : List Char),
    splitSchemeAux l = Option.some (s, r) → l = s ++ ':' :: '/' :: '/' :: r := by
  intro l
  induction l with
  | nil => intro s r h; simp [splitSchemeAux] at h
  | cons c cs ih =>
    intro s r h
    unfold splitSchemeAux at h
    split_ifs at h with hc
    · obtain ⟨hc1, hc2⟩ := hc
      obtain ⟨hs, hr⟩ := Prod.mk.injEq .. ▸ Option.some.inj h
      subst hs hr hc1
      conv_lhs => rw [← List.take_append_drop 2 cs]
      rw [hc2]
      rfl
    · rw [Option.map_eq_some'] at h
      obtain ⟨pr, hpr, heq⟩ := h
      obtain ⟨h1, h2⟩ := Prod.mk.injEq .. ▸ heq
      subst h1 h2
      rw [List.cons_append, ← ih pr.1 pr.2 hpr]

/-- Rebuilding a string from its character list is the identity. -/
theorem string_mk_data (s : String) : String.mk s.data = s := rfl

/-! ## Claims -/

/-- Claim C1, counterexample.  The claim says a GET against a not-found path
returns an empty structured result and raises nothing.  In fact, with a full
configuration and a transport that would answer 404 to everything, `http_get`
raises (a `NameError` on the unbound `log`, before any request); and even the
response-handling code of `http_get` (lines 120–127), handed a 404 response
directly, raises a `SaltInvocationError` instead of returning an empty
result. -/
theorem http_get_not_found_counterexample :
    http_get "/projects/1" [] envNotFound = (.error (.nameError "log"), []) ∧
    http_get_handle []
        (.dict [("status", .int 404), ("dict", .dict []), ("error", .str "Not Found")]) =
      .error (.saltError (.str "Not Found")) := ⟨rfl, rfl⟩

/-- Claim C1, amended.  For every GET response whose status is not 200 —
not-found included — and not in streaming mode, the response handling of
`http_get` raises a `SaltInvocationError` carrying the response's `error`
field; it never returns an empty structured result for a not-found status. -/
theorem http_get_raises_on_not_found (kwargs : List (String × Val)) (response : Val)
    (h1 : valTruthy (lookupD kwargs "stream" (.bool false)) = false)
    (h2 : valEqInt (vgetD response "status" .none) 200 = false) :
    http_get_handle kwargs response = .error (.saltError (vgetD response "error" .none)) := by
  unfold http_get_handle
  rw [if_neg (by simp [h1]), if_pos h2]

/-- Witness for the amended C1 at a concrete 404 response. -/
theorem http_get_raises_on_not_found_witness :
    http_get_handle [] (.dict [("status", .int 404), ("error", .str "404 Not Found")]) =
      .error (.saltError (.str "404 Not Found")) :=
  http_get_raises_on_not_found [] _ rfl rfl

/-- Claim C2 (code bug).  `project_set_variable(1, "X", "v")` should list the
variables and then issue exactly one update (the listing for project 1
contains "X"), but the preliminary GET aborts inside `_http_request` with a
`NameError` on the unbound name `log` (line 83), so the call raises and
issues neither an update nor a create call. -/
theorem set_variable_crashes_on_unbound_log :
    project_set_variable 1 "X" (.str "v") [] envVariableList =
      (.error (.nameError "log"), []) := rfl

/-- Claim C3.  Whenever the configuration supplies both `api_url` (a non-empty
string) and a truthy `token`, `_http_request` raises a `NameError` on the
unbound name `log` — evaluated after the URL is built and before the transport
query — and no public operation of the module ever issues an outbound HTTP
request (the recorded query trace is empty for every operation, in every
environment). -/
theorem unbound_log_aborts_every_call (method path : String)
    (kwargs : List (String × Val)) (env : Env) (master : Val) (base : String)
    (h1 : validKwargs kwargs = true)
    (h2 : env.master_config = .ok master)
    (h3 : vgetD (vgetD master "gitlab" (.dict [])) "api_url" .none = .str base)
    (h4 : base ≠ "")
    (h5 : valTruthy (vgetD (vgetD master "gitlab" (.dict [])) "token" .none) = true) :
    http_request method path kwargs env = (.error (.nameError "log"), []) ∧
    (∀ (p : String) (kw : List (String × Val)) (d v : Val) (pid : Int) (k : String),
      (http_get p kw env).2 = [] ∧ (http_post p d kw env).2 = [] ∧
      (http_put p d kw env).2 = [] ∧ (http_delete p kw env).2 = [] ∧
      (project_create_variable pid k v kw env).2 = [] ∧
      (project_remove_variable pid k env).2 = [] ∧
      (project_update_variable pid k kw env).2 = [] ∧
      (project_set_variable pid k v kw env).2 = []) := by
  refine ⟨http_request_good method path kwargs env master base h1 h2 h3 h4 h5, ?_⟩
  intro p kw d v pid k
  exact ⟨http_get_snd _ _ _, http_post_snd _ _ _ _, http_put_snd _ _ _ _,
    http_delete_snd _ _ _, project_create_variable_snd _ _ _ _ _,
    project_remove_variable_snd _ _ _, project_update_variable_snd _ _ _ _,
    project_set_variable_snd _ _ _ _ _⟩

/-- Witness for C3 at a concrete complete configuration. -/
theorem unbound_log_aborts_every_call_witness :
    http_request "GET" "/projects/1" [] envNotFound = (.error (.nameError "log"), []) ∧
    (project_set_variable 1 "X" (.str "v") [] envNotFound).2 = [] := by
  have h := unbound_log_aborts_every_call "GET" "/projects/1" [] envNotFound
    sampleMaster "https://gl.example.com" rfl rfl rfl (by decide) rfl
  exact ⟨h.1, (h.2 "/x" [] .none (.str "v") 1 "X").2.2.2.2.2.2.2⟩

/-- Claim C4, counterexample.  The claim says a PUT against a path with a
non-success status raises an `ApiError` carrying that status.  With a full
configuration and a transport that would answer 500, `http_put` instead
raises a `NameError` (carrying no status), and issues no request at all;
`http_put` contains no status handling whatsoever. -/
theorem put_non_success_counterexample :
    http_put "/projects/1/variables/K" (.dict [("value", .str "v")]) [] envServerError =
      (.error (.nameError "log"), []) := rfl

/-- Claim C4, amended.  The response handling of `http_get` raises a
`SaltInvocationError` carrying the response's `error` field (not the status
code) for every non-200 status, and that of `http_post` does the same for
every non-201 status; `http_put` performs no status handling at all and, as
shipped, aborts with a `NameError` on the unbound `log` before any request is
issued. -/
theorem non_success_status_never_api_error (kwargs : List (String × Val)) (response : Val)
    (path : String) (data : Val) (kw2 : List (String × Val)) (env : Env) (master : Val)
    (base : String)
    (hs : valTruthy (lookupD kwargs "stream" (.bool false)) = false)
    (h200 : valEqInt (vgetD response "status" .none) 200 = false)
    (h201 : valEqInt (vgetD response "status" .none) 201 = false)
    (hkw : validKwargs (("data", data) :: kw2) = true)
    (hnd : hasKey kw2 "data" = false)
    (h2 : env.master_config = .ok master)
    (h3 : vgetD (vgetD master "gitlab" (.dict [])) "api_url" .none = .str base)
    (h4 : base ≠ "")
    (h5 : valTruthy (vgetD (vgetD master "gitlab" (.dict [])) "token" .none) = true) :
    http_get_handle kwargs response = .error (.saltError (vgetD response "error" .none)) ∧
    http_post_handle response = .error (.saltError (vgetD response "error" .none)) ∧
    http_put path data kw2 env = (.error (.nameError "log"), []) := by
  refine ⟨?_, ?_, ?_⟩
  · unfold http_get_handle
    rw [if_neg (by simp [hs]), if_pos h200]
  · unfold http_post_handle
    rw [if_pos h201]
  · unfold http_put
    rw [if_neg (by simp [hnd])]
    exact http_request_good "PUT" path (("data", data) :: kw2) env master base hkw h2 h3 h4 h5

/-- Witness for the amended C4 at a concrete 500 response. -/
theorem non_success_status_never_api_error_witness :
    http_get_handle [] (.dict [("status", .int 500), ("error", .str "Internal Server Error")]) =
      .error (.saltError (.str "Internal Server Error")) ∧
    http_post_handle (.dict [("status", .int 500), ("error", .str "Internal Server Error")]) =
      .error (.saltError (.str "Internal Server Error")) ∧
    http_put "/projects/1/variables/K" (.dict []) [] envServerError =
      (.error (.nameError "log"), []) :=
  non_success_status_never_api_error [] _ "/projects/1/variables/K" (.dict []) []
    envServerError sampleMaster "https://gl.example.com" rfl rfl rfl rfl rfl rfl rfl
    (by decide) rfl

/-- Claim C5, counterexample.  The claim says the built URL always has exactly
one separator between `/api/v4` and the path.  For the path `projects`
(no leading slash), the URL is `…/api/v4projects`, with no separator. -/
theorem buildUrl_missing_separator_counterexample :
    buildUrl "https://gitlab.example.com" "projects" =
      "https://gitlab.example.com/api/v4projects" ∧
    buildUrl "https://gitlab.example.com" "projects" ≠
      "https://gitlab.example.com" ++ "/api/v4" ++ "/" ++ "projects" := by
  refine ⟨rfl, ?_⟩
  decide

/-- Claim C5, amended.  For an `api_url` of the form `scheme://host` with no
path component, and for every path `p`, the built URL is `api_url` followed by
`/api/v4` followed directly by `p`: there is exactly one separator exactly
when `p` itself begins with a slash, and none is inserted otherwise. -/
theorem buildUrl_concatenates_without_separator (api_url p : String)
    (scheme rest : List Char)
    (h1 : splitSchemeAux api_url.toList = Option.some (scheme, rest))
    (h2 : rest.takeWhile (fun c => c ≠ '/') = rest) :
    buildUrl api_url p = api_url ++ "/api/v4" ++ p := by
  have hl : api_url.toList = scheme ++ ':' :: '/' :: '/' :: rest :=
    splitSchemeAux_append _ _ _ h1
  unfold buildUrl urljoin
  rw [h1]
  dsimp only
  rw [h2]
  have hm : scheme ++ [':', '/', '/'] ++ rest = api_url.toList := by
    rw [hl]; simp
  rw [hm]
  exact String.append_assoc api_url "/api/v4" p |>.symm

/-- Witness for the amended C5 at a concrete base URL and path. -/
theorem buildUrl_concatenates_without_separator_witness :
    buildUrl "https://gitlab.example.com" "/projects/1" =
      "https://gitlab.example.com" ++ "/api/v4" ++ "/projects/1" :=
  buildUrl_concatenates_without_separator "https://gitlab.example.com" "/projects/1"
    "https".toList "gitlab.example.com".toList rfl rfl

/-- Claim C6.  For every request whose keyword arguments are well formed, if
the resolved configuration lacks a (truthy) `api_url` the call raises
`SaltInvocationError("No GitLab API URL found")`, and if it has an `api_url`
but lacks a (truthy) `token` it raises
`SaltInvocationError("No GitLab Token found")`; in both cases the query trace
is empty — zero network calls. -/
theorem missing_config_field_raises_before_any_query (method path : String)
    (kwargs : List (String × Val)) (env : Env) (master : Val)
    (h1 : validKwargs kwargs = true)
    (h2 : env.master_config = .ok master) :
    (valTruthy (vgetD (vgetD master "gitlab" (.dict [])) "api_url" .none) = false →
      http_request method path kwargs env =
        (.error (.saltError (.str "No GitLab API URL found")), [])) ∧
    (valTruthy (vgetD (vgetD master "gitlab" (.dict [])) "api_url" .none) = true →
     valTruthy (vgetD (vgetD master "gitlab" (.dict [])) "token" .none) = false →
      http_request method path kwargs env =
        (.error (.saltError (.str "No GitLab Token found")), [])) := by
  constructor
  · intro hA
    unfold http_request
    simp only [h1, Bool.true_eq_false, if_false]
    unfold mbind get_config
    rw [h2]
    dsimp only
    rw [if_pos hA]
    rfl
  · intro hA hT
    unfold http_request
    simp only [h1, Bool.true_eq_false, if_false]
    unfold mbind get_config
    rw [h2]
    dsimp only
    rw [if_neg (by simp [hA]), if_pos hT]
    rfl

/-- Witness for C6 at concrete configurations missing each field. -/
theorem missing_config_field_raises_before_any_query_witness :
    http_request "GET" "/projects/1" [] envNoApiUrl =
      (.error (.saltError (.str "No GitLab API URL found")), []) ∧
    http_request "GET" "/projects/1" [] envNoToken =
      (.error (.saltError (.str "No GitLab Token found")), []) := by
  constructor
  · exact (missing_config_field_raises_before_any_query "GET" "/projects/1" []
      envNoApiUrl (.dict [("gitlab", .dict [("token", .str "t0k")])]) rfl rfl).1 rfl
  · exact (missing_config_field_raises_before_any_query "GET" "/projects/1" []
      envNoToken (.dict [("gitlab", .dict [("api_url", .str "https://gl.example.com")])])
      rfl rfl).2 rfl rfl

/-- Claim C7.  For every call to `project_create_variable` with a truthy
form-data option and no truthy form-data field name, the call raises
`SaltInvocationError("formdata_fieldname must be set if formdata=True")` and
performs zero network calls — the check fires before `http_post` is ever
invoked, in every environment. -/
theorem create_variable_formdata_without_fieldname_raises
    (pid : Int) (key : String) (value : Val) (kwargs : List (String × Val)) (env : Env)
    (h1 : valTruthy (lookupD kwargs "formdata" (.bool false)) = true)
    (h2 : valTruthy (lookupD kwargs "formdata_fieldname" .none) = false) :
    project_create_variable pid key value kwargs env =
      (.error (.saltError (.str "formdata_fieldname must be set if formdata=True")), []) := by
  unfold project_create_variable
  rw [if_neg (by simp [h1, h2]), if_pos (by simp [h1, h2])]
  rfl

/-- Witness for C7 at a concrete call. -/
theorem create_variable_formdata_without_fieldname_raises_witness :
    project_create_variable 1 "NEW_VARIABLE" (.str "v") [("formdata", .bool true)] envNotFound =
      (.error (.saltError (.str "formdata_fieldname must be set if formdata=True")), []) :=
  create_variable_formdata_without_fieldname_raises 1 "NEW_VARIABLE" (.str "v")
    [("formdata", .bool true)] envNotFound rfl rfl

/-- Claim C8, counterexample.  The claim says every non-GET request carries
`Content-Type: application/json`.  `POST` is a non-GET method, yet the header
dict built for a POST contains only `PRIVATE-TOKEN` — the source excludes
exactly POST, not GET, from the Content-Type header. -/
theorem post_headers_lack_content_type_counterexample :
    ("POST" ≠ "GET") ∧
    (buildHeaders "POST" (.str "t0k")).map Prod.fst = ["PRIVATE-TOKEN"] ∧
    "Content-Type" ∉ (buildHeaders "POST" (.str "t0k")).map Prod.fst := by
  decide

/-- Claim C8, amended.  Every request's header dict carries `PRIVATE-TOKEN`
with the configured token, and every method other than POST (GET included)
additionally carries `Content-Type: application/json`. -/
theorem private_token_always_content_type_for_non_post (method : String) (token : Val) :
    ("PRIVATE-TOKEN", token) ∈ buildHeaders method token ∧
    (method ≠ "POST" →
      ("Content-Type", Val.str "application/json") ∈ buildHeaders method token) := by
  unfold buildHeaders
  split_ifs with h
  · exact ⟨List.mem_cons_self _ _, fun _ => by simp⟩
  · exact ⟨List.mem_cons_self _ _, fun hc => absurd hc h⟩

/-- Witness for the amended C8 at a concrete method and token. -/
theorem private_token_always_content_type_for_non_post_witness :
    ("PRIVATE-TOKEN", Val.str "t0k") ∈ buildHeaders "PUT" (.str "t0k") ∧
    ("Content-Type", Val.str "application/json") ∈ buildHeaders "PUT" (.str "t0k") :=
  ⟨(private_token_always_content_type_for_non_post "PUT" (.str "t0k")).1,
   (private_token_always_content_type_for_non_post "PUT" (.str "t0k")).2 (by decide)⟩

/-- Claim C9.  For every update call with distinct keyword keys,
`project_update_variable` delegates to `http_put` passing as the payload
exactly the supplied fields among {environment_scope, masked, protected,
value, variable_type} (in that fixed order), and as extra request options
exactly the other supplied fields minus the host-injected (`__`-prefixed)
ones, forwarded verbatim. -/
theorem update_variable_payload_and_extras (project_id : Int) (key : String)
    (kwargs : List (String × Val)) (h : (keysOf kwargs).Nodup) :
    project_update_variable project_id key kwargs =
      http_put ("/projects/" ++ toString project_id ++ "/variables/" ++ key)
        (.dict (recognizedPayload kwargs)) (forwardedExtras kwargs) := by
  obtain ⟨ha, hb⟩ := popParams_spec updateParams kwargs h (by decide)
  have hext : (kwargs.filter (fun kv => !updateParams.contains kv.1)).filter
      (fun kv => !startsWithUnderscores kv.1) = forwardedExtras kwargs := by
    rw [List.filter_filter]
    unfold forwardedExtras
    apply List.filter_congr
    intro kv _
    rw [Bool.and_comm]
  unfold project_update_variable
  dsimp only
  rw [ha, hb, hext]
  rfl

/-- Witness for C9 at a concrete keyword list mixing recognized fields, an
extra option and a host-injected key. -/
theorem update_variable_payload_and_extras_witness :
    (keysOf [("value", Val.str "v2"), ("protected", Val.bool true),
             ("timeout", Val.int 30), ("__pub_fun", Val.str "f")]).Nodup ∧
    project_update_variable 7 "KEY"
        [("value", Val.str "v2"), ("protected", Val.bool true),
         ("timeout", Val.int 30), ("__pub_fun", Val.str "f")] =
      http_put "/projects/7/variables/KEY"
        (.dict [("protected", Val.bool true), ("value", Val.str "v2")])
        [("timeout", Val.int 30)] := by
  refine ⟨by decide, ?_⟩
  have h := update_variable_payload_and_extras 7 "KEY"
    [("value", Val.str "v2"), ("protected", Val.bool true),
     ("timeout", Val.int 30), ("__pub_fun", Val.str "f")] (by decide)
  exact h

/-- Claim C10, counterexample.  The claim says a successful POST with no
decoded JSON payload returns the raw response.  A 201 response with no
`dict` entry makes the response handling of `http_post` return an empty dict,
not the raw response. -/
theorem http_post_no_payload_counterexample :
    http_post_handle (.dict [("status", .int 201), ("body", .str "raw body")]) =
      .ok (.dict []) ∧
    (Except.ok (Val.dict []) : Except PyErr Val) ≠
      .ok (.dict [("status", .int 201), ("body", .str "raw body")]) := by
  refine ⟨rfl, ?_⟩
  simp

/-- Claim C10, amended.  For every POST response with status 201 (the one
status `http_post` accepts) and distinct keys, the response handling returns
the decoded payload under `dict` when one is present, and an empty dict —
not the raw response — when none is. -/
theorem http_post_created_payload (kvs : List (String × Val)) (v : Val)
    (hnd : (keysOf kvs).Nodup)
    (hst : ("status", Val.int 201) ∈ kvs) :
    (("dict", v) ∈ kvs → http_post_handle (.dict kvs) = .ok v) ∧
    ("dict" ∉ keysOf kvs → http_post_handle (.dict kvs) = .ok (.dict [])) := by
  have hs : lookupKey kvs "status" = Option.some (.int 201) :=
    lookupKey_eq_of_mem_nodup hnd hst
  constructor
  · intro hd
    have hdv : lookupKey kvs "dict" = Option.some v := lookupKey_eq_of_mem_nodup hnd hd
    unfold http_post_handle vgetD lookupD
    dsimp only
    rw [hs, hdv]
    rfl
  · intro hd
    have hdv : lookupKey kvs "dict" = Option.none := lookupKey_none_of_not_mem hd
    unfold http_post_handle vgetD lookupD
    dsimp only
    rw [hs, hdv]
    rfl

/-- Witness for the amended C10 at concrete 201 responses with and without a
decoded payload. -/
theorem http_post_created_payload_witness :
    http_post_handle (.dict [("status", .int 201), ("dict", .str "payload")]) =
      .ok (.str "payload") ∧
    http_post_handle (.dict [("status", .int 201), ("body", .str "raw")]) = .ok (.dict []) := by
  constructor
  · exact (http_post_created_payload [("status", .int 201), ("dict", .str "payload")]
      (.str "payload") (by decide) (List.mem_cons_self _ _)).1
      (List.mem_cons_of_mem _ (List.mem_cons_self _ _))
  · exact (http_post_created_payload [("status", .int 201), ("body", .str "raw")]
      (.str "payload") (by decide) (List.mem_cons_self _ _)).2 (by decide)

end Gitlab
